import Mathlib

/-!
Verification of the alert-classification and report-building logic of
`daily_check.py` (morning commute briefing script).

The script's pure logic is shallowly embedded below:
* `pyIn pat s` models Python's substring test `pat in s`;
* `pyLower` models Python's `str.lower()` (ASCII case folding, which covers
  every string the script compares);
* `AlertRecord` models one MBTA alert as consumed by `check_mbta_split`
  (`effect`, `header`, `description`, and the `route_id` extracted from the
  first informed entity);
* `check_mbta_split`, `get_m2_summary`, `send_email` and the `__main__`
  subject/body construction are embedded as pure functions, with each
  external effect (HTTP fetch, LLM call, SMTP send) passed in as an
  `Except`-valued argument describing the outcome of that call.
-/

namespace DailyCheck

/-- `startsWith pat l` is true when `pat` is an initial segment of `l`
(character-list level helper for the substring test). -/
def startsWith : List Char → List Char → Bool
  | [], _ => true
  | _ :: _, [] => false
  | a :: as, b :: bs => a == b && startsWith as bs

/-- `hasSub pat l` is true when `pat` occurs contiguously inside `l`. -/
def hasSub (pat : List Char) : List Char → Bool
  | [] => pat.isEmpty
  | c :: rest => startsWith pat (c :: rest) || hasSub pat rest

/-- Python's substring membership test `pat in s`. -/
def pyIn (pat s : String) : Bool := hasSub pat.data s.data

/-- Python's `str.lower()`, modelled as per-character ASCII lowering
(all strings the script case-folds are ASCII apart from emoji, which
`lower()` leaves unchanged as well). -/
def pyLower (s : String) : String := String.mk (s.data.map Char.toLower)

/-- One MBTA alert as `check_mbta_split` reads it from the JSON payload:
`attributes.effect`, `attributes.header`, `attributes.description`, and the
`route_id` of the first informed entity (`none` when absent). -/
structure AlertRecord where
  effect : String
  header : String
  description : String
  route_id : Option String
deriving DecidableEq, Repr

/-- The effects `check_mbta_split` treats as significant
(`['DELAY', 'SUSPENSION', 'DETOUR', 'SNOW_ROUTE', 'SHUTTLE']`). -/
def relevant_effects : List String :=
  ["DELAY", "SUSPENSION", "DETOUR", "SNOW_ROUTE", "SHUTTLE"]

/-- The key Red Line locations (`target_zone` in `check_mbta_split`). -/
def target_zone : List String := ["Kendall", "MIT", "Central", "Harvard"]

/-- The Red Line geographic gate of `check_mbta_split`: a zone keyword
(lower-cased) occurs in the lower-cased `header + description`, or the
global markers `"all"` / `"global"` occur there. -/
def redZoneGate (a : AlertRecord) : Bool :=
  let text_to_check := pyLower (a.header ++ a.description)
  let affects_my_commute := target_zone.any fun stop => pyIn (pyLower stop) text_to_check
  let is_global := pyIn "all" text_to_check || pyIn "global" text_to_check
  affects_my_commute || is_global

/-- The alert loop of `check_mbta_split`: walks the alert list in order and
collects the `"⚠️ " + header` lines for the Red Line and for Bus 1. -/
def collectAlerts : List AlertRecord → List String × List String
  | [] => ([], [])
  | a :: rest =>
    let acc := collectAlerts rest
    if relevant_effects.contains a.effect then
      if a.route_id == some "Red" then
        if redZoneGate a then (("⚠️ " ++ a.header) :: acc.1, acc.2)
        else acc
      else if a.route_id == some "1" then
        (acc.1, ("⚠️ " ++ a.header) :: acc.2)
      else acc
    else acc

/-- `check_mbta_split` on a successfully fetched and parsed alert list:
builds the Red Line and Bus 1 status strings. -/
def check_mbta_split (alerts : List AlertRecord) : String × String :=
  let pair := collectAlerts alerts
  let red_status :=
    if pair.1.isEmpty then "✅ Service Normal (Kendall <-> Harvard)"
    else "🚨 **RED LINE ISSUES:**\n" ++ String.intercalate "\n" pair.1
  let bus_status :=
    if pair.2.isEmpty then "✅ Service Normal"
    else "🚨 **BUS 1 ISSUES:**\n" ++ String.intercalate "\n" pair.2
  (red_status, bus_status)

/-- `check_mbta_split` including its `try/except`: `fetch` is the outcome of
`requests.get(...).json()` (`Except.error e` when any exception with text `e`
is raised); on failure the same error message is returned for both routes. -/
def check_mbta_split_result (fetch : Except String (List AlertRecord)) : String × String :=
  match fetch with
  | Except.ok alerts => check_mbta_split alerts
  | Except.error e =>
    let error_msg := "Error checking MBTA: " ++ e
    (error_msg, error_msg)

/-- `get_m2_summary`: returns the LLM reply on success, and the
`"⚠️ Error asking AI about M2: ..."` string when the call raises. -/
def get_m2_summary (llmReply : Except String String) : String :=
  match llmReply with
  | Except.ok content => content
  | Except.error e => "⚠️ Error asking AI about M2: " ++ e

/-- `red_bad` in `__main__`: `"ISSUES" in red_status`. -/
def redBad (red_status : String) : Bool := pyIn "ISSUES" red_status

/-- `bus_bad` in `__main__`: `"ISSUES" in bus_status`. -/
def busBad (bus_status : String) : Bool := pyIn "ISSUES" bus_status

/-- `m2_bad` in `__main__`: `"Service Normal" not in m2_status`. -/
def m2Bad (m2_status : String) : Bool := !(pyIn "Service Normal" m2_status)

/-- The subject-line selection of `__main__`. -/
def buildSubject (red_status bus_status m2_status today : String) : String :=
  let red_bad := redBad red_status
  let bus_bad := busBad bus_status
  let m2_bad := m2Bad m2_status
  if !red_bad && !bus_bad && !m2_bad then
    "✅ Commute Clear: All Normal (" ++ today ++ ")"
  else if red_bad then
    "⚠️ Commute Alert: Red Line Issues (" ++ today ++ ")"
  else if bus_bad then
    "⚠️ Commute Alert: Bus 1 Issues (" ++ today ++ ")"
  else if m2_bad then
    "⚠️ Commute Alert: M2 Shuttle Issues (" ++ today ++ ")"
  else
    "⚠️ Commute Update (" ++ today ++ ")"

/-- The `email_body` f-string of `__main__`. -/
def buildBody (today red_status bus_status m2_status : String) : String :=
  "\n    COMMUTE BRIEFING - " ++ today ++
  "\n    \n    -------------------------------------------\n    🚇 RED LINE (Subway)\n    " ++
  red_status ++
  "\n    \n    -------------------------------------------\n    🚌 BUS 1 (Backup)\n    " ++
  bus_status ++
  "\n\n    -------------------------------------------\n    🚐 HARVARD M2 SHUTTLE\n    " ++
  m2_status ++
  "\n    \n    -------------------------------------------\n    "

/-- `SendResult` describes how a call to `send_email` terminates: either an
exception escapes the function (`raised`), or the function returns normally
after printing the given console line (`completed`). -/
inductive SendResult where
  | raised (err : String)
  | completed (log : String)
deriving DecidableEq, Repr

/-- True when a `SendResult` is an escaped exception. -/
def isRaised : SendResult → Bool
  | SendResult.raised _ => true
  | SendResult.completed _ => false

/-- `send_email`: `env` models `os.environ` (so `env "EMAIL_USER"` is
`os.environ['EMAIL_USER']`, raising `KeyError` when absent, modelled as
`SendResult.raised`), and `smtpSend` models the SMTP login-and-send block
(sender, password, receivers, subject, body; the MIME serialisation is
stdlib glue outside the embedded logic). The `try/except` around the SMTP
block converts its failure into a printed line, never an escaped
exception. -/
def send_email (env : String → Option String)
    (smtpSend : String → String → List String → String → String → Except String Unit)
    (subject body : String) : SendResult :=
  match env "EMAIL_USER" with
  | none => SendResult.raised "KeyError: EMAIL_USER"
  | some sender =>
    match env "EMAIL_PASSWORD" with
    | none => SendResult.raised "KeyError: EMAIL_PASSWORD"
    | some password =>
      let raw_to := (env "EMAIL_TO").getD sender
      let receivers :=
        if pyIn "," raw_to then (raw_to.splitOn ",").map String.trim
        else [raw_to]
      match smtpSend sender password receivers subject body with
      | Except.ok _ =>
        SendResult.completed ("✅ Email sent to " ++ toString receivers.length ++ " recipient(s)!")
      | Except.error err => SendResult.completed ("❌ Email failed: " ++ err)

/-! ### Helper lemmas about the substring test -/

lemma startsWith_self (l : List Char) : startsWith l l = true := by
  induction l with
  | nil => rfl
  | cons c cs ih => simp [startsWith, ih]

lemma startsWith_append (pat l l' : List Char) (h : startsWith pat l = true) :
    startsWith pat (l ++ l') = true := by
  induction pat generalizing l with
  | nil => rfl
  | cons p ps ih =>
    cases l with
    | nil => simp [startsWith] at h
    | cons c cs =>
      simp only [startsWith, Bool.and_eq_true] at h
      simp only [List.cons_append, startsWith, Bool.and_eq_true]
      exact ⟨h.1, ih cs h.2⟩

lemma hasSub_nil_pat (l : List Char) : hasSub [] l = true := by
  cases l with
  | nil => rfl
  | cons c cs => simp [hasSub, startsWith]

lemma hasSub_self (l : List Char) : hasSub l l = true := by
  cases l with
  | nil => rfl
  | cons c cs => simp [hasSub, startsWith_self]

lemma hasSub_append_right (pat l l' : List Char) (h : hasSub pat l = true) :
    hasSub pat (l ++ l') = true := by
  induction l with
  | nil =>
    simp only [hasSub, List.isEmpty_iff] at h
    subst h
    exact hasSub_nil_pat l'
  | cons c cs ih =>
    simp only [hasSub, Bool.or_eq_true] at h
    simp only [List.cons_append, hasSub, Bool.or_eq_true]
    cases h with
    | inl h => exact Or.inl (by simpa using startsWith_append pat (c :: cs) l' h)
    | inr h => exact Or.inr (ih h)

lemma hasSub_append_left (pat l l' : List Char) (h : hasSub pat l' = true) :
    hasSub pat (l ++ l') = true := by
  induction l with
  | nil => simpa using h
  | cons c cs ih =>
    simp only [List.cons_append, hasSub, Bool.or_eq_true]
    exact Or.inr ih

lemma hasSub_around (m l₁ l₂ : List Char) : hasSub m (l₁ ++ (m ++ l₂)) = true :=
  hasSub_append_left m l₁ (m ++ l₂) (hasSub_append_right m m l₂ (hasSub_self m))

lemma hasSub_append_head_not_mem (p : Char) (ps l₁ l₂ : List Char) (hp : p ∉ l₁) :
    hasSub (p :: ps) (l₁ ++ l₂) = hasSub (p :: ps) l₂ := by
  induction l₁ with
  | nil => rfl
  | cons c cs ih =>
    have hcp : (p == c) = false := by
      refine beq_eq_false_iff_ne.mpr ?_
      intro hq
      exact hp (hq ▸ List.mem_cons_self c cs)
    simp only [List.cons_append, hasSub, startsWith, hcp, Bool.false_and, Bool.false_or]
    exact ih (fun hm => hp (List.mem_cons_of_mem c hm))

lemma strData_append (s t : String) : (s ++ t).data = s.data ++ t.data := by
  cases s
  cases t
  rfl

lemma pyLower_append (s t : String) :
    pyLower (s ++ t) = pyLower s ++ pyLower t := by
  cases s with
  | mk ls =>
    cases t with
    | mk lt =>
      show String.mk ((ls ++ lt).map Char.toLower)
          = String.mk (ls.map Char.toLower) ++ String.mk (lt.map Char.toLower)
      show String.mk ((ls ++ lt).map Char.toLower)
          = String.mk (ls.map Char.toLower ++ lt.map Char.toLower)
      rw [List.map_append]

lemma ne_of_data_head (s u : String) (c c' : Char) (hs : s.data.head? = some c)
    (hu : u.data.head? = some c') (hcc : c ≠ c') : s ≠ u := by
  intro h
  rw [h, hu] at hs
  exact hcc (Option.some.inj hs).symm

/-! ### Characterisation of the alert loop -/

/-- An alert survives into the Red Line bucket exactly when its effect is
relevant, its route is `"Red"`, and the zone gate passes. -/
def redKeep (a : AlertRecord) : Bool :=
  relevant_effects.contains a.effect && (a.route_id == some "Red") && redZoneGate a

/-- An alert survives into the Bus 1 bucket exactly when its effect is
relevant and its route is `"1"` (reaching the `elif` means it is not
`"Red"`). -/
def busKeep (a : AlertRecord) : Bool :=
  relevant_effects.contains a.effect && !(a.route_id == some "Red") && (a.route_id == some "1")

lemma collectAlerts_eq (alerts : List AlertRecord) :
    collectAlerts alerts =
      ((alerts.filter redKeep).map (fun a => "⚠️ " ++ a.header),
       (alerts.filter busKeep).map (fun a => "⚠️ " ++ a.header)) := by
  induction alerts with
  | nil => rfl
  | cons a rest ih =>
    simp only [collectAlerts, ih, List.filter_cons]
    by_cases h1 : a.effect ∈ relevant_effects
    · by_cases h2 : a.route_id = some "Red"
      · cases h3 : redZoneGate a with
        | false =>
          have hr : redKeep a = false := by simp [redKeep, h3]
          have hb : busKeep a = false := by simp [busKeep, h2]
          simp [h1, h2, h3, hr, hb]
        | true =>
          have hr : redKeep a = true := by simp [redKeep, h1, h2, h3]
          have hb : busKeep a = false := by simp [busKeep, h2]
          simp [h1, h2, h3, hr, hb]
      · by_cases h4 : a.route_id = some "1"
        · have hr : redKeep a = false := by simp [redKeep, h2]
          have hb : busKeep a = true := by simp [busKeep, h1, h2, h4]
          simp [h1, h2, h4, hr, hb]
        · have hr : redKeep a = false := by simp [redKeep, h2]
          have hb : busKeep a = false := by simp [busKeep, h4]
          simp [h1, h2, h4, hr, hb]
    · have hr : redKeep a = false := by simp [redKeep, h1]
      have hb : busKeep a = false := by simp [busKeep, h1]
      simp [h1, hr, hb]

/-! ### Claim theorems -/

/-- Claim C1: subject-line priority. Whenever the Red Line status is
disrupted (contains the `"ISSUES"` marker) the subject is exactly the Red
Line alert template — regardless of the Bus 1 and shuttle statuses, so Bus 1
is never named; when only Bus 1 (resp. only the shuttle) is disrupted the
subject is exactly the Bus 1 (resp. M2 shuttle) template. Only the single
highest-priority disrupted route is ever named. -/
theorem subject_priority (red_status bus_status m2_status today : String) :
    (redBad red_status = true →
      buildSubject red_status bus_status m2_status today
        = "⚠️ Commute Alert: Red Line Issues (" ++ today ++ ")") ∧
    (redBad red_status = false → busBad bus_status = true →
      buildSubject red_status bus_status m2_status today
        = "⚠️ Commute Alert: Bus 1 Issues (" ++ today ++ ")") ∧
    (redBad red_status = false → busBad bus_status = false → m2Bad m2_status = true →
      buildSubject red_status bus_status m2_status today
        = "⚠️ Commute Alert: M2 Shuttle Issues (" ++ today ++ ")") := by
  refine ⟨fun hr => ?_, fun hr hb => ?_, fun hr hb hm => ?_⟩
  · simp [buildSubject, hr]
  · simp [buildSubject, hr, hb]
  · simp [buildSubject, hr, hb, hm]

/-- Witness for C1: with both the Red Line and Bus 1 statuses disrupted, the
subject is the Red Line template (and so never names Bus 1). -/
theorem subject_priority_witness :
    buildSubject "🚨 **RED LINE ISSUES:**\n⚠️ x" "🚨 **BUS 1 ISSUES:**\n⚠️ y"
        "✅ Service Normal" "Mon, Jan 01"
      = "⚠️ Commute Alert: Red Line Issues (Mon, Jan 01)" :=
  (subject_priority "🚨 **RED LINE ISSUES:**\n⚠️ x" "🚨 **BUS 1 ISSUES:**\n⚠️ y"
    "✅ Service Normal" "Mon, Jan 01").1 (by decide)

/-- Claim C2: end-to-end all-clear. An empty alert list from the transit API
together with the shuttle summarizer returning the canonical sentinel
`"✅ Service Normal"` produces the subject
`"✅ Commute Clear: All Normal (<date>)"`. -/
theorem all_clear_subject (today : String) :
    buildSubject (check_mbta_split_result (Except.ok [])).1
        (check_mbta_split_result (Except.ok [])).2
        (get_m2_summary (Except.ok "✅ Service Normal")) today
      = "✅ Commute Clear: All Normal (" ++ today ++ ")" := rfl

/-- Claim C3: effect filter. Dropping every alert whose effect is outside
the relevant set leaves `check_mbta_split` unchanged, and every line of the
collected Red Line / Bus 1 buckets stems from an alert whose effect is in
the relevant set — so an irrelevant-effect alert never contributes to either
status text. -/
theorem effect_filter_invariance (alerts : List AlertRecord) :
    check_mbta_split alerts
        = check_mbta_split (alerts.filter fun a => relevant_effects.contains a.effect) ∧
    (∀ s ∈ (collectAlerts alerts).1,
      ∃ a, a ∈ alerts ∧ a.effect ∈ relevant_effects ∧ s = "⚠️ " ++ a.header) ∧
    (∀ s ∈ (collectAlerts alerts).2,
      ∃ a, a ∈ alerts ∧ a.effect ∈ relevant_effects ∧ s = "⚠️ " ++ a.header) := by
  refine ⟨?_, ?_, ?_⟩
  · have hred : (alerts.filter fun a => relevant_effects.contains a.effect).filter redKeep
        = alerts.filter redKeep := by
      rw [List.filter_filter]
      refine List.filter_congr fun a _ => ?_
      by_cases h : a.effect ∈ relevant_effects <;> simp [redKeep, h]
    have hbus : (alerts.filter fun a => relevant_effects.contains a.effect).filter busKeep
        = alerts.filter busKeep := by
      rw [List.filter_filter]
      refine List.filter_congr fun a _ => ?_
      by_cases h : a.effect ∈ relevant_effects <;> simp [busKeep, h]
    simp only [check_mbta_split, collectAlerts_eq, hred, hbus]
  · intro s hs
    rw [collectAlerts_eq] at hs
    rcases List.mem_map.mp hs with ⟨a, ha, rfl⟩
    rcases List.mem_filter.mp ha with ⟨hmem, hkeep⟩
    simp only [redKeep, Bool.and_eq_true] at hkeep
    exact ⟨a, hmem, by simpa using hkeep.1.1, rfl⟩
  · intro s hs
    rw [collectAlerts_eq] at hs
    rcases List.mem_map.mp hs with ⟨a, ha, rfl⟩
    rcases List.mem_filter.mp ha with ⟨hmem, hkeep⟩
    simp only [busKeep, Bool.and_eq_true] at hkeep
    exact ⟨a, hmem, by simpa using hkeep.1.1, rfl⟩

/-- Witness for C3: the provenance clause applied to a concrete Bus 1 delay
alert. -/
theorem effect_filter_invariance_witness :
    ∃ a, a ∈ [AlertRecord.mk "DELAY" "h" "d" (some "1")]
      ∧ a.effect ∈ relevant_effects ∧ "⚠️ h" = "⚠️ " ++ a.header :=
  (effect_filter_invariance [AlertRecord.mk "DELAY" "h" "d" (some "1")]).2.2 "⚠️ h" (by decide)

/-- Claim C4: Red Line zone gate. A Red Line alert with a relevant effect is
kept (its tagged header appears in the Red Line bucket) if and only if some
zone keyword, or one of the global markers `"all"` / `"global"`, occurs
case-insensitively in the concatenation of its header and description; when
neither occurs, the alert is excluded and the Red Line status stays at
`"✅ Service Normal (Kendall <-> Harvard)"` even though the effect was
relevant. -/
theorem red_zone_gate_iff (a : AlertRecord)
    (heff : a.effect ∈ relevant_effects) (hroute : a.route_id = some "Red") :
    (("⚠️ " ++ a.header) ∈ (collectAlerts [a]).1 ↔
      ((target_zone.any fun stop => pyIn (pyLower stop) (pyLower (a.header ++ a.description)))
          || (pyIn "all" (pyLower (a.header ++ a.description))
              || pyIn "global" (pyLower (a.header ++ a.description)))) = true) ∧
    (((target_zone.any fun stop => pyIn (pyLower stop) (pyLower (a.header ++ a.description)))
          || (pyIn "all" (pyLower (a.header ++ a.description))
              || pyIn "global" (pyLower (a.header ++ a.description)))) = false →
      (check_mbta_split [a]).1 = "✅ Service Normal (Kendall <-> Harvard)") := by
  have hunfold : redZoneGate a
      = ((target_zone.any fun stop => pyIn (pyLower stop) (pyLower (a.header ++ a.description)))
          || (pyIn "all" (pyLower (a.header ++ a.description))
              || pyIn "global" (pyLower (a.header ++ a.description)))) := rfl
  have hkeep : redKeep a = redZoneGate a := by
    simp [redKeep, heff, hroute]
  have hcoll : (collectAlerts [a]).1
      = if redZoneGate a then ["⚠️ " ++ a.header] else [] := by
    rw [collectAlerts_eq]
    simp [List.filter, hkeep]
    cases hg : redZoneGate a <;> simp
  constructor
  · rw [← hunfold, hcoll]
    cases hg : redZoneGate a <;> simp
  · intro hfalse
    have hg : redZoneGate a = false := by rw [hunfold]; exact hfalse
    simp [check_mbta_split, hcoll, hg]

/-- Witness for C4: a concrete Red Line delay alert mentioning Kendall is
kept. -/
theorem red_zone_gate_iff_witness :
    ("⚠️ " ++ (AlertRecord.mk "DELAY" "Delays at Kendall" "" (some "Red")).header)
      ∈ (collectAlerts [AlertRecord.mk "DELAY" "Delays at Kendall" "" (some "Red")]).1 :=
  ((red_zone_gate_iff (AlertRecord.mk "DELAY" "Delays at Kendall" "" (some "Red"))
    (by decide) rfl).1).mpr (by decide)

/-- Claim C5: Harvard inclusion. A Red Line alert with a relevant effect
whose header or description contains the substring `"Harvard"`
case-insensitively is always kept: its tagged header appears in the Red Line
bucket for any alert list containing it. -/
theorem harvard_always_included (alerts : List AlertRecord) (a : AlertRecord)
    (ha : a ∈ alerts) (heff : a.effect ∈ relevant_effects)
    (hroute : a.route_id = some "Red")
    (hharv : pyIn "harvard" (pyLower a.header) = true
      ∨ pyIn "harvard" (pyLower a.description) = true) :
    ("⚠️ " ++ a.header) ∈ (collectAlerts alerts).1 := by
  have htext : pyIn "harvard" (pyLower (a.header ++ a.description)) = true := by
    rw [pyLower_append]
    show hasSub ("harvard".data) ((pyLower a.header ++ pyLower a.description).data) = true
    rw [strData_append]
    cases hharv with
    | inl h => exact hasSub_append_right _ _ _ h
    | inr h => exact hasSub_append_left _ _ _ h
  have hHar : pyIn (pyLower "Harvard") (pyLower (a.header ++ a.description)) = true := by
    have : pyLower "Harvard" = "harvard" := by decide
    rw [this]
    exact htext
  have hgate : redZoneGate a = true := by
    simp [redZoneGate, target_zone, hHar]
  rw [collectAlerts_eq]
  exact List.mem_map_of_mem _
    (List.mem_filter.mpr ⟨ha, by simp [redKeep, heff, hroute, hgate]⟩)

/-- Witness for C5: a concrete Red Line shuttle alert mentioning Harvard is
included. -/
theorem harvard_always_included_witness :
    ("⚠️ " ++ (AlertRecord.mk "SHUTTLE" "Shuttle buses replace Red Line trains at Harvard"
        "" (some "Red")).header)
      ∈ (collectAlerts [AlertRecord.mk "SHUTTLE" "Shuttle buses replace Red Line trains at Harvard"
        "" (some "Red")]).1 :=
  harvard_always_included _ _ (by simp) (by decide) rfl (Or.inl (by decide))

/-- Claim C6: Bus 1 inclusion. A Bus 1 alert with a relevant effect is
always kept, with no condition on its header or description: its tagged
header appears in the Bus 1 bucket for any alert list containing it. -/
theorem bus1_always_included (alerts : List AlertRecord) (a : AlertRecord)
    (ha : a ∈ alerts) (heff : a.effect ∈ relevant_effects)
    (hroute : a.route_id = some "1") :
    ("⚠️ " ++ a.header) ∈ (collectAlerts alerts).2 := by
  rw [collectAlerts_eq]
  exact List.mem_map_of_mem _
    (List.mem_filter.mpr ⟨ha, by simp [busKeep, heff, hroute]⟩)

/-- Witness for C6: a concrete Bus 1 detour alert whose text mentions no
zone keyword is still included. -/
theorem bus1_always_included_witness :
    ("⚠️ " ++ (AlertRecord.mk "DETOUR" "Route 1 detour via Main St" "nothing geographic"
        (some "1")).header)
      ∈ (collectAlerts [AlertRecord.mk "DETOUR" "Route 1 detour via Main St" "nothing geographic"
        (some "1")]).2 :=
  bus1_always_included _ _ (by simp) (by decide) rfl

/-- Claim C7: MBTA fetch failure. When the fetch (or JSON parse) raises with
any message, both route statuses are the same explicit error string, and
that string is never one of the normal-service statuses. -/
theorem mbta_fetch_error_status (e : String) :
    (check_mbta_split_result (Except.error e)).1
        = (check_mbta_split_result (Except.error e)).2 ∧
    (check_mbta_split_result (Except.error e)).1
        ≠ "✅ Service Normal (Kendall <-> Harvard)" ∧
    (check_mbta_split_result (Except.error e)).1 ≠ "✅ Service Normal" := by
  refine ⟨rfl, ?_, ?_⟩
  · show "Error checking MBTA: " ++ e ≠ "✅ Service Normal (Kendall <-> Harvard)"
    refine ne_of_data_head _ _ 'E' '✅' ?_ (by decide) (by decide)
    rw [strData_append]
    rfl
  · show "Error checking MBTA: " ++ e ≠ "✅ Service Normal"
    refine ne_of_data_head _ _ 'E' '✅' ?_ (by decide) (by decide)
    rw [strData_append]
    rfl

/-- Counterexample for C8: a summarization failure whose exception text is
`"Service Normal"` yields the error string
`"⚠️ Error asking AI about M2: Service Normal"`, which contains the
sentinel, so the shuttle is classified as NOT disrupted — refuting the claim
that every fetch/summarization failure is classified as disrupted. -/
theorem m2_error_sentinel_collision :
    m2Bad (get_m2_summary (Except.error "Service Normal")) = false := by decide

/-- Claim C8 (amended): the shuttle is classified as disrupted iff its
status text does not contain the sentinel `"Service Normal"`; a
summarization failure is classified as disrupted whenever its exception text
does not itself contain the sentinel, and likewise for the shuttle fetch
error string; the fixed website-access error string is always classified as
disrupted. -/
theorem m2_classification (s e : String) (he : pyIn "Service Normal" e = false) :
    (m2Bad s = true ↔ pyIn "Service Normal" s = false) ∧
    m2Bad (get_m2_summary (Except.error e)) = true ∧
    m2Bad "⚠️ Could not access Longwood Collective website." = true ∧
    m2Bad ("Error checking M2: " ++ e) = true := by
  have herr : pyIn "Service Normal" ("⚠️ Error asking AI about M2: " ++ e)
      = pyIn "Service Normal" e := by
    show hasSub ("Service Normal".data) (("⚠️ Error asking AI about M2: " ++ e).data) = _
    rw [strData_append]
    exact hasSub_append_head_not_mem 'S' "ervice Normal".data _ _ (by decide)
  have herr2 : pyIn "Service Normal" ("Error checking M2: " ++ e)
      = pyIn "Service Normal" e := by
    show hasSub ("Service Normal".data) (("Error checking M2: " ++ e).data) = _
    rw [strData_append]
    exact hasSub_append_head_not_mem 'S' "ervice Normal".data _ _ (by decide)
  refine ⟨by simp [m2Bad], ?_, by decide, ?_⟩
  · show m2Bad ("⚠️ Error asking AI about M2: " ++ e) = true
    simp [m2Bad, herr, he]
  · simp [m2Bad, herr2, he]

/-- Witness for C8 (amended): a failure with exception text `"boom"` is
classified as disrupted. -/
theorem m2_classification_witness :
    m2Bad (get_m2_summary (Except.error "boom")) = true :=
  (m2_classification "✅ Service Normal" "boom" (by decide)).2.1

/-- Counterexample for C9: with the mail credential variables absent (the
environment is empty) `send_email` does not return normally — a `KeyError`
escapes, for any SMTP behaviour, refuting the claim that the run logs an
error and exits without raising. -/
theorem send_email_missing_creds_raises :
    isRaised (send_email (fun _ => none) (fun _ _ _ _ _ => Except.ok ())
      "subject" "body") = true := rfl

/-- Claim C9 (amended): when `EMAIL_USER` is absent, `send_email` raises a
`KeyError` before any delivery is attempted (the result does not depend on
the SMTP behaviour), and no console line is produced; likewise for
`EMAIL_PASSWORD` when `EMAIL_USER` is present. -/
theorem send_email_missing_creds (env : String → Option String)
    (smtpSend : String → String → List String → String → String → Except String Unit)
    (subject body u : String) :
    (env "EMAIL_USER" = none →
      send_email env smtpSend subject body = SendResult.raised "KeyError: EMAIL_USER") ∧
    (env "EMAIL_USER" = some u → env "EMAIL_PASSWORD" = none →
      send_email env smtpSend subject body = SendResult.raised "KeyError: EMAIL_PASSWORD") := by
  constructor
  · intro h
    simp [send_email, h]
  · intro h h2
    simp [send_email, h, h2]

/-- Witness for C9 (amended): the empty environment makes `send_email` raise
the `EMAIL_USER` key error. -/
theorem send_email_missing_creds_witness :
    send_email (fun _ => none) (fun _ _ _ _ _ => Except.ok ()) "subject" "body"
      = SendResult.raised "KeyError: EMAIL_USER" :=
  (send_email_missing_creds (fun _ => none) (fun _ _ _ _ _ => Except.ok ())
    "subject" "body" "u").1 rfl

/-- Claim C10 (implicit): when the MBTA fetch fails with an exception text
free of the `"ISSUES"` marker and the shuttle status contains
`"Service Normal"`, the subject is the all-clear subject, while the fetch
error string still appears verbatim in the report body. -/
theorem fetch_error_all_clear (e m2 today : String)
    (he : pyIn "ISSUES" e = false)
    (hm2 : pyIn "Service Normal" m2 = true) :
    buildSubject (check_mbta_split_result (Except.error e)).1
        (check_mbta_split_result (Except.error e)).2 m2 today
      = "✅ Commute Clear: All Normal (" ++ today ++ ")" ∧
    pyIn (check_mbta_split_result (Except.error e)).1
        (buildBody today (check_mbta_split_result (Except.error e)).1
          (check_mbta_split_result (Except.error e)).2 m2) = true := by
  have herr : pyIn "ISSUES" ("Error checking MBTA: " ++ e) = false := by
    have h1 : pyIn "ISSUES" ("Error checking MBTA: " ++ e) = pyIn "ISSUES" e := by
      show hasSub ("ISSUES".data) (("Error checking MBTA: " ++ e).data) = _
      rw [strData_append]
      exact hasSub_append_head_not_mem 'I' "SSUES".data _ _ (by decide)
    rw [h1]
    exact he
  constructor
  · show buildSubject ("Error checking MBTA: " ++ e) ("Error checking MBTA: " ++ e) m2 today = _
    simp [buildSubject, redBad, busBad, m2Bad, herr, hm2]
  · show pyIn ("Error checking MBTA: " ++ e)
        (buildBody today ("Error checking MBTA: " ++ e) ("Error checking MBTA: " ++ e) m2) = true
    show hasSub ("Error checking MBTA: " ++ e).data
        (buildBody today ("Error checking MBTA: " ++ e) ("Error checking MBTA: " ++ e) m2).data
      = true
    simp only [buildBody, strData_append, List.append_assoc]
    apply hasSub_append_left
    apply hasSub_append_left
    apply hasSub_append_left
    rw [← List.append_assoc]
    exact hasSub_append_right _ _ _ (hasSub_self _)

/-- Witness for C10: a connection-timeout fetch failure with a normal
shuttle produces the all-clear subject, with the error string in the body. -/
theorem fetch_error_all_clear_witness :
    buildSubject (check_mbta_split_result (Except.error "Connection timeout")).1
        (check_mbta_split_result (Except.error "Connection timeout")).2
        "✅ Service Normal" "Mon, Jan 01"
      = "✅ Commute Clear: All Normal (Mon, Jan 01)" :=
  (fetch_error_all_clear "Connection timeout" "✅ Service Normal" "Mon, Jan 01"
    (by decide) (by decide)).1

end DailyCheck
